import Mathlib

/-!
# Formal model of the mental-health-companion backend

A shallow embedding of the FastAPI backend of the mental-health
journaling service, together with proofs of its stated properties.

Conventions of the embedding:
* Python `str` values that are only carried around and compared are
  modelled as Lean `String`; Python strings that are inspected
  character by character (passwords, LLM reply text) are modelled as
  `List Char` (`PyStr`), with ASCII-level models of `lower`/`strip`
  (the source only ever compares against ASCII keywords).
* The Cosmos DB containers are modelled as Lean lists of documents,
  one structure per container schema; `create_item` appends,
  `replace_item` replaces by id, `delete_item` filters by
  id/partition key, and SQL queries are modelled as
  filter / stable sort / offset / limit over the list.
* `datetime.utcnow().isoformat()` timestamps are modelled as `Nat`
  (ISO-8601 strings of a fixed clock compare like the instants they
  denote); `uuid.uuid4()` fresh ids are passed in as parameters,
  with freshness as an explicit hypothesis where it matters.
* `async`/`await` plumbing is dropped: each request handler is a pure
  function from the pre-state of the store to (response, post-state).
* bcrypt password hashing (`passlib`) is an external library; it is
  modelled as an abstract function parameter `hashPw`.
-/

/-! ## Python string primitives (ASCII model) -/

/-- Python `str` modelled as a list of characters. -/
abbrev PyStr := List Char

/-- Embed a Lean string literal as a `PyStr`. -/
def pyS (s : String) : PyStr := s.toList

/-- Python `str.lower()` (ASCII model). -/
def pyLower (s : PyStr) : PyStr := s.map Char.toLower

/-- Python `str.strip()` (ASCII whitespace model). -/
def pyStrip (s : PyStr) : PyStr :=
  ((s.dropWhile Char.isWhitespace).reverse.dropWhile Char.isWhitespace).reverse

/-- Python `s.split(":", 1)` for a string that contains a colon:
the part before the first `:` and everything after it. -/
def pySplitColon : PyStr → PyStr × PyStr
  | [] => ([], [])
  | c :: cs =>
    if c = ':' then ([], cs)
    else
      let p := pySplitColon cs
      (c :: p.1, p.2)

/-! ## Stable descending sort (model of Cosmos `ORDER BY … DESC`) -/

/-- Insert `a` into a list that is sorted by `key` in descending
order, keeping the order stable. -/
def insertDescBy (key : α → Nat) (a : α) : List α → List α
  | [] => [a]
  | b :: bs => if key b < key a then a :: b :: bs else b :: insertDescBy key a bs

/-- Stable insertion sort, descending by `key`; model of the
`ORDER BY key DESC` clause of the Cosmos SQL queries. -/
def sortDescBy (key : α → Nat) : List α → List α
  | [] => []
  | a :: as => insertDescBy key a (sortDescBy key as)

theorem mem_insertDescBy (key : α → Nat) (a x : α) (l : List α) :
    x ∈ insertDescBy key a l ↔ x = a ∨ x ∈ l := by
  induction l with
  | nil => simp [insertDescBy]
  | cons b bs ih =>
    by_cases h : key b < key a
    · simp [insertDescBy, h]
    · simp only [insertDescBy, if_neg h, List.mem_cons, ih]
      tauto

theorem mem_sortDescBy (key : α → Nat) (x : α) (l : List α) :
    x ∈ sortDescBy key l ↔ x ∈ l := by
  induction l with
  | nil => simp [sortDescBy]
  | cons a as ih => simp [sortDescBy, mem_insertDescBy, ih]

theorem sortDescBy_eq_nil_iff (key : α → Nat) (l : List α) :
    sortDescBy key l = [] ↔ l = [] := by
  cases l with
  | nil => simp [sortDescBy]
  | cons a as =>
    simp only [sortDescBy]
    constructor
    · intro h
      have : a ∈ insertDescBy key a (sortDescBy key as) := by
        rw [mem_insertDescBy]; exact Or.inl rfl
      rw [h] at this
      exact absurd this (List.not_mem_nil a)
    · intro h; exact absurd h (List.cons_ne_nil a as)

theorem pairwise_insertDescBy (key : α → Nat) (a : α) (l : List α)
    (h : l.Pairwise (fun x y => key y ≤ key x)) :
    (insertDescBy key a l).Pairwise (fun x y => key y ≤ key x) := by
  induction l with
  | nil => simp [insertDescBy]
  | cons b bs ih =>
    rcases List.pairwise_cons.mp h with ⟨hb, hbs⟩
    by_cases hc : key b < key a
    · rw [insertDescBy, if_pos hc]
      refine List.pairwise_cons.mpr ⟨?_, h⟩
      intro y hy
      rcases List.mem_cons.mp hy with rfl | hy'
      · exact Nat.le_of_lt hc
      · exact Nat.le_trans (hb y hy') (Nat.le_of_lt hc)
    · rw [insertDescBy, if_neg hc]
      refine List.pairwise_cons.mpr ⟨?_, ih hbs⟩
      intro y hy
      rcases (mem_insertDescBy key a y bs).mp hy with rfl | hy'
      · exact Nat.le_of_not_lt hc
      · exact hb y hy'

theorem pairwise_sortDescBy (key : α → Nat) (l : List α) :
    (sortDescBy key l).Pairwise (fun x y => key y ≤ key x) := by
  induction l with
  | nil => simp [sortDescBy]
  | cons a as ih => exact pairwise_insertDescBy key a _ ih

theorem insertDescBy_congr (key₁ key₂ : α → Nat) (a : α) (l : List α)
    (ha : key₁ a = key₂ a) (hl : ∀ x ∈ l, key₁ x = key₂ x) :
    insertDescBy key₁ a l = insertDescBy key₂ a l := by
  induction l with
  | nil => rfl
  | cons b bs ih =>
    have hb : key₁ b = key₂ b := hl b (List.mem_cons_self b bs)
    have hbs : ∀ x ∈ bs, key₁ x = key₂ x :=
      fun x hx => hl x (List.mem_cons_of_mem b hx)
    simp only [insertDescBy, hb, ha, ih hbs]

theorem sortDescBy_congr (key₁ key₂ : α → Nat) (l : List α)
    (hl : ∀ x ∈ l, key₁ x = key₂ x) :
    sortDescBy key₁ l = sortDescBy key₂ l := by
  induction l with
  | nil => rfl
  | cons a as ih =>
    have ha : key₁ a = key₂ a := hl a (List.mem_cons_self a as)
    have has : ∀ x ∈ as, key₁ x = key₂ x :=
      fun x hx => hl x (List.mem_cons_of_mem a hx)
    simp only [sortDescBy, ih has]
    exact insertDescBy_congr key₁ key₂ a _ ha
      (fun x hx => has x ((mem_sortDescBy key₂ x as).mp hx))

theorem mem_of_head?_eq_some {l : List α} {a : α} (h : l.head? = some a) :
    a ∈ l := by
  cases l with
  | nil => simp at h
  | cons b bs =>
    simp only [List.head?_cons, Option.some.injEq] at h
    exact h ▸ List.mem_cons_self b bs

/-! ## HTTP error responses -/

/-- A FastAPI `HTTPException` as observed by the client. -/
structure HTTPError where
  status_code : Nat
  detail : String
deriving DecidableEq, Repr

/-! ## Journal entries (`shared/models/journal.py`, `backend/shared/cosmos.py`) -/

/-- A document of the `journal_entries` container.  Fields are those
written by `CosmosService.create_journal_entry` /
`update_journal_entry`; `type` is the raw document discriminator used
by the listing query (`c.type = 'journal_entry'`), which is not a
field of the `JournalEntry` pydantic model. -/
structure JournalDoc where
  id : String
  user_id : String
  content : String
  mood_indicators : List String
  mood_score : Option Nat
  created_at : Nat
  updated_at : Option Nat
  ai_insights : Option (List (String × String))
  sentiment_score : Option Int
  type : Option String
deriving DecidableEq, Repr

/-- `JournalEntryUpdate.dict(exclude_unset=True)`: for each updatable
field, `none` means the field was not supplied in the PUT payload.
`mood_score` may be explicitly set to null (`some none`). -/
structure JournalEntryUpdateData where
  content : Option String
  mood_indicators : Option (List String)
  mood_score : Option (Option Nat)
deriving DecidableEq, Repr

namespace CosmosService

/-- `CosmosService.get_journal_entries`: the query
`SELECT * FROM c WHERE c.user_id = @uid AND c.type = 'journal_entry'
ORDER BY c.created_at DESC OFFSET @skip LIMIT @limit`. -/
def get_journal_entries (store : List JournalDoc) (user_id : String)
    (skip limit : Nat) : List JournalDoc :=
  ((sortDescBy (fun d => d.created_at)
      (store.filter
        (fun d => d.user_id == user_id && d.type == some "journal_entry"))).drop
    skip).take limit

/-- `CosmosService.get_journal_entry` as called by the journal router
(without the optional `user_id` argument): the query
`SELECT * FROM c WHERE c.id = @eid`, taking `items[0]` if any. -/
def get_journal_entry (store : List JournalDoc) (entry_id : String) :
    Option JournalDoc :=
  store.find? (fun d => d.id == entry_id)

/-- `CosmosService.create_journal_entry`: builds the document and
`create_item`s it.  `newId` is the generated `uuid4` and `now` the
`datetime.utcnow()` timestamp.  Returns the created entry and the
post-state of the container. -/
def create_journal_entry (store : List JournalDoc) (newId : String)
    (now : Nat) (user_id : String) (content : String)
    (mood_indicators : List String) (mood_score : Option Nat)
    (ai_insights : Option (List (String × String))) :
    JournalDoc × List JournalDoc :=
  let d : JournalDoc :=
    { id := newId, user_id := user_id, content := content,
      mood_indicators := mood_indicators, mood_score := mood_score,
      created_at := now, updated_at := none, ai_insights := ai_insights,
      sentiment_score := none, type := some "journal_entry" }
  (d, store ++ [d])

/-- The replacement document built by `CosmosService.update_journal_entry`
as it is invoked by the journal router.  The router passes the parsed
payload as the single keyword argument
`update_data=entry_update.dict(exclude_unset=True)`, which lands in
the method's `**update_fields` catch-all as `{"update_data": {...}}`;
`update_dict.update(update_fields)` therefore adds only a nested
`"update_data"` member to the body — ignored by the
`JournalEntry(**...)` parse and by every query in the source, hence
not modelled as a document field — and then sets `updated_at`.  No
model field of the entry is changed by the payload's values.  As the
body is built from `entry.dict()`, the raw `type` discriminator is
also not carried over.  The payload `u` stays in the signature as
what the call transports (into the inert nested member only). -/
def apply_update (e : JournalDoc) (_update_data : JournalEntryUpdateData)
    (now : Nat) : JournalDoc :=
  { id := e.id
    user_id := e.user_id
    content := e.content
    mood_indicators := e.mood_indicators
    mood_score := e.mood_score
    created_at := e.created_at
    updated_at := some now
    ai_insights := e.ai_insights
    sentiment_score := e.sentiment_score
    type := none }

/-- `CosmosService.update_journal_entry` as invoked by the journal
router (payload in the single `update_data` kwarg): re-reads the
entry, checks ownership (returning `none` otherwise), then
`replace_item`s the document with the given id by `apply_update`. -/
def update_journal_entry (store : List JournalDoc) (entry_id user_id : String)
    (u : JournalEntryUpdateData) (now : Nat) :
    Option JournalDoc × List JournalDoc :=
  match get_journal_entry store entry_id with
  | none => (none, store)
  | some e =>
    if e.user_id == user_id then
      let nd := apply_update e u now
      (some nd, store.map (fun d => if d.id == entry_id then nd else d))
    else (none, store)

/-- `CosmosService.delete_journal_entry`: re-reads the entry, checks
ownership, then `delete_item(item=entry_id, partition_key=user_id)`.
Returns whether a delete happened and the post-state. -/
def delete_journal_entry (store : List JournalDoc) (entry_id user_id : String) :
    Bool × List JournalDoc :=
  match get_journal_entry store entry_id with
  | none => (false, store)
  | some e =>
    if e.user_id == user_id then
      (true, store.filter (fun d => !(d.id == entry_id && d.user_id == user_id)))
    else (false, store)

end CosmosService

/-- The 404 raised by the journal router for a missing or
foreign-owned entry. -/
def notFoundJournal : HTTPError := ⟨404, "Journal entry not found"⟩

namespace JournalRouter

/-- `GET /journal/` handler. -/
def get_journal_entries (store : List JournalDoc) (current_user : String)
    (skip limit : Nat) : List JournalDoc :=
  CosmosService.get_journal_entries store current_user skip limit

/-- `POST /journal/` handler: analyzes the content (the resulting
`ai_insights` dictionary is passed in as `insights`) and creates the
entry for the current user. -/
def create_journal_entry (store : List JournalDoc) (newId : String)
    (now : Nat) (current_user : String) (content : String)
    (mood_indicators : List String) (mood_score : Option Nat)
    (insights : Option (List (String × String))) :
    JournalDoc × List JournalDoc :=
  CosmosService.create_journal_entry store newId now current_user content
    mood_indicators mood_score insights

/-- `GET /journal/{entry_id}` handler: 404 unless the entry exists
and is owned by the current user. -/
def get_journal_entry (store : List JournalDoc) (entry_id : String)
    (current_user : String) : Except HTTPError JournalDoc :=
  match CosmosService.get_journal_entry store entry_id with
  | none => .error notFoundJournal
  | some e =>
    if e.user_id == current_user then .ok e else .error notFoundJournal

/-- `PUT /journal/{entry_id}` handler: 404 unless the entry exists and
is owned; otherwise delegates to `CosmosService.update_journal_entry`
and returns its (optional) result. -/
def update_journal_entry (store : List JournalDoc) (entry_id : String)
    (u : JournalEntryUpdateData) (current_user : String) (now : Nat) :
    Except HTTPError (Option JournalDoc) × List JournalDoc :=
  match CosmosService.get_journal_entry store entry_id with
  | none => (.error notFoundJournal, store)
  | some e =>
    if e.user_id == current_user then
      let r := CosmosService.update_journal_entry store entry_id current_user u now
      (.ok r.1, r.2)
    else (.error notFoundJournal, store)

/-- `DELETE /journal/{entry_id}` handler: 404 unless the entry exists
and is owned; otherwise deletes and returns the success message. -/
def delete_journal_entry (store : List JournalDoc) (entry_id : String)
    (current_user : String) : Except HTTPError String × List JournalDoc :=
  match CosmosService.get_journal_entry store entry_id with
  | none => (.error notFoundJournal, store)
  | some e =>
    if e.user_id == current_user then
      let r := CosmosService.delete_journal_entry store entry_id current_user
      (.ok "Entry deleted successfully", r.2)
    else (.error notFoundJournal, store)

end JournalRouter

/-! ## Mood logs (`shared/models/mood.py`, `backend/shared/cosmos.py`) -/

/-- A document of the `mood_logs` container, as written by
`CosmosService.create_mood_log`. -/
structure MoodDoc where
  id : String
  user_id : String
  mood_score : Nat
  mood_labels : List String
  timestamp : Nat
  context : Option String
  factors : List String
  location : Option String
  created_at : Nat
  updated_at : Nat
deriving DecidableEq, Repr

namespace CosmosService

/-- `CosmosService.get_mood_logs`: the query
`SELECT * FROM c WHERE c.user_id = @uid ORDER BY c.timestamp DESC
OFFSET @skip LIMIT @limit`. -/
def get_mood_logs (store : List MoodDoc) (user_id : String)
    (limit skip : Nat) : List MoodDoc :=
  ((sortDescBy (fun d => d.timestamp)
      (store.filter (fun d => d.user_id == user_id))).drop skip).take limit

/-- `CosmosService.create_mood_log`: builds the document (with
`timestamp`, `created_at` and `updated_at` all set to the same
`datetime.utcnow()` instant) and `create_item`s it. -/
def create_mood_log (store : List MoodDoc) (newId : String) (now : Nat)
    (user_id : String) (mood_score : Nat) (mood_labels : List String)
    (context : Option String) (factors : Option (List String))
    (location : Option String) : MoodDoc × List MoodDoc :=
  let d : MoodDoc :=
    { id := newId, user_id := user_id, mood_score := mood_score,
      mood_labels := mood_labels, timestamp := now, context := context,
      factors := factors.getD [], location := location,
      created_at := now, updated_at := now }
  (d, store ++ [d])

end CosmosService

/-! ## Users and authentication (`shared/models/user.py`,
`backend/shared/auth.py`, `backend/api/routers/auth.py`) -/

/-- A document of the `users` container, as written by
`CosmosService.create_user`. -/
structure UserDoc where
  id : String
  email : String
  hashed_password : String
  created_at : Nat
  subscription_tier : String
  preferences : List (String × String)
  profile : List (String × String)
deriving DecidableEq, Repr

namespace CosmosService

/-- `CosmosService.get_user_by_email`: the query
`SELECT * FROM c WHERE c.email = @email ORDER BY c.created_at DESC`,
taking the first (most recent) match if any. -/
def get_user_by_email (store : List UserDoc) (email : String) :
    Option UserDoc :=
  (sortDescBy (fun u => u.created_at)
    (store.filter (fun u => u.email == email))).head?

/-- `CosmosService.create_user`: `create_item` of the new user
document with the default profile fields; raises (`.error`) when a
document with the same id already exists in the container. -/
def create_user (store : List UserDoc) (id email hashed_password : String)
    (now : Nat) : Except String UserDoc × List UserDoc :=
  if store.any (fun u => u.id == id) then
    (.error ("User with ID " ++ id ++ " already exists"), store)
  else
    let u : UserDoc :=
      { id := id, email := email, hashed_password := hashed_password,
        created_at := now, subscription_tier := "free",
        preferences := [], profile := [] }
    (.ok u, store ++ [u])

end CosmosService

/-- The 401 raised by `get_current_user` for every failure mode. -/
def credentials_exception : HTTPError := ⟨401, "Could not validate credentials"⟩

/-- The claims relevant to `jwt.decode` of a presented bearer token:
whether its signature verifies under the configured secret, whether
it is expired, and its `sub` claim (if present). -/
structure TokenClaims where
  sig_valid : Bool
  expired : Bool
  sub : Option String
deriving DecidableEq, Repr

/-- `jose.jwt.decode`: raises `JWTError` (modelled as `.error`) on a
bad signature or an expired token, otherwise yields the payload's
`sub` claim. -/
def jwt_decode (t : TokenClaims) : Except Unit (Option String) :=
  if t.sig_valid && !t.expired then .ok t.sub else .error ()

/-- `backend.shared.auth.get_current_user`: decodes the token, reads
the `sub` claim, looks the user up by email, and raises the 401
`credentials_exception` on any failure. -/
def get_current_user (store : List UserDoc) (token : TokenClaims) :
    Except HTTPError UserDoc :=
  match jwt_decode token with
  | .error _ => .error credentials_exception
  | .ok none => .error credentials_exception
  | .ok (some username) =>
    match CosmosService.get_user_by_email store username with
    | none => .error credentials_exception
    | some u => .ok u

namespace AuthRouter

/-- `POST /auth/register` handler: rejects an already-registered
email with 400, otherwise creates the user with a fresh `uuid4` id
(`newId`) and the bcrypt hash of the submitted password (`hashPw` is
the abstract `get_password_hash`).  A `create_user` failure surfaces
as an unhandled 500. -/
def register_user (store : List UserDoc) (newId : String) (now : Nat)
    (hashPw : String → String) (email password : String) :
    Except HTTPError UserDoc × List UserDoc :=
  match CosmosService.get_user_by_email store email with
  | some _ => (.error ⟨400, "Email already registered"⟩, store)
  | none =>
    match CosmosService.create_user store newId email (hashPw password) now with
    | (.ok u, store') => (.ok u, store')
    | (.error _, store') => (.error ⟨500, "Internal Server Error"⟩, store')

end AuthRouter

/-! ## `UserCreate` validation (`shared/models/user.py`) -/

/-- The `password_strength` validator: at least 8 characters, at
least one digit, at least one uppercase letter. -/
def password_strength (v : PyStr) : Bool :=
  decide (8 ≤ v.length) && v.any Char.isDigit && v.any Char.isUpper

/-- Whole-payload validation of `UserCreate`.  `password_confirm` is
an optional field defaulting to `None`: `none` means the field was
omitted from the payload, in which case pydantic does not run the
`passwords_match` validator at all; `some v` means it was supplied
with value `v` (`v = none` being an explicit JSON null), and the
validator rejects unless `v` equals the password. -/
def validate_user_create (password : PyStr)
    (password_confirm : Option (Option PyStr)) : Bool :=
  password_strength password &&
    (match password_confirm with
     | none => true
     | some v => v == some password)

/-! ## LLM orchestration (`backend/shared/azure_agent_service.py`,
`backend/plugins/safety.py`, `backend/plugins/mood_analyzer.py`) -/

/-- The error classes distinguished by the tenacity retry predicates:
`ConnectionError` and `TimeoutError` are the transient network and
timeout errors; everything else is non-transient. -/
inductive ErrKind
  | connectionError
  | timeoutError
  | otherError
deriving DecidableEq, Repr

/-- `retry_if_exception_type((ConnectionError, TimeoutError))`. -/
def isTransient : ErrKind → Bool
  | .connectionError => true
  | .timeoutError => true
  | .otherError => false

/-- tenacity `wait_exponential(multiplier, min, max)` evaluated after
the `attempt`-th failed attempt: `multiplier * 2^attempt` clamped to
`[lo, hi]`. -/
def wait_exponential (multiplier lo hi attempt : Nat) : Nat :=
  Nat.max lo (Nat.min (multiplier * 2 ^ attempt) hi)

/-- The observable trace of one retried operation: the final outcome
(`.error e` meaning the exception `e` was re-raised to the caller),
the number of attempts actually made, and the backoff waits slept
between attempts. -/
structure RetryTrace (ε α : Type) where
  result : Except ε α
  calls : Nat
  waits : List Nat
deriving Repr

/-- Core of the tenacity `@retry` loop.  `fuel` is the number of
retries still allowed (`stop_after_attempt n` gives `n - 1`),
`attempt` the 1-based number of the attempt about to run, and
`oracle k` the outcome of the `k`-th execution of the wrapped body. -/
def retryRunAux (shouldRetry : ε → Bool) (wait : Nat → Nat)
    (oracle : Nat → Except ε α) : Nat → Nat → RetryTrace ε α
  | 0, attempt =>
    match oracle attempt with
    | .ok a => ⟨.ok a, 1, []⟩
    | .error e => ⟨.error e, 1, []⟩
  | fuel + 1, attempt =>
    match oracle attempt with
    | .ok a => ⟨.ok a, 1, []⟩
    | .error e =>
      if shouldRetry e then
        let t := retryRunAux shouldRetry wait oracle fuel (attempt + 1)
        ⟨t.result, t.calls + 1, wait attempt :: t.waits⟩
      else ⟨.error e, 1, []⟩

/-- tenacity `@retry(stop=stop_after_attempt maxAttempts, wait=wait,
retry=retry_if shouldRetry)` applied to a body whose successive
executions are described by `oracle`. -/
def retry_run (shouldRetry : ε → Bool) (wait : Nat → Nat)
    (maxAttempts : Nat) (oracle : Nat → Except ε α) : RetryTrace ε α :=
  retryRunAux shouldRetry wait oracle (maxAttempts - 1) 1

namespace AzureAgentService

/-- `AzureAgentService.get_agent_response`: the body forwards the
underlying chat-completion call and re-raises every exception (its
`except` clause logs and `raise`s), so the operation is exactly the
retry wrapper `stop_after_attempt(3)`,
`wait_exponential(multiplier=1, min=1, max=10)`,
`retry_if_exception_type((ConnectionError, TimeoutError))` around the
call.  `oracle k` gives the outcome of the `k`-th underlying call. -/
def get_agent_response (oracle : Nat → Except ErrKind α) : RetryTrace ErrKind α :=
  retry_run isTransient (wait_exponential 1 1 10) 3 oracle

end AzureAgentService

/-- The shape of one LLM reply text as consumed by
`SafetyPlugin.assess_risk`'s parser:
* `jsonObj risk reasoning` — the text is a well-formed JSON object;
  `risk`/`reasoning` are its `risk_level`/`reasoning` members when
  they are strings (missing members fall back to the `.get` defaults);
* `jsonOther` — the text is well-formed JSON whose handling raises
  (a non-object, or non-string member values, on which `.get`/
  `.lower()` raise into the enclosing `except`);
* `notJson text` — `json.loads` raises `JSONDecodeError` and the
  colon-splitting fallback parser runs on `text`. -/
inductive LlmReply
  | jsonObj (risk_level : Option PyStr) (reasoning : Option PyStr)
  | jsonOther
  | notJson (text : PyStr)
deriving DecidableEq, Repr

/-- The dictionary returned by `SafetyPlugin.assess_risk`. -/
structure RiskDict where
  risk_level : PyStr
  reasoning : PyStr
  requires_immediate_action : Bool
deriving DecidableEq, Repr

/-- The list `["none", "low", "moderate", "high"]` the parsed risk
level is validated against. -/
def riskLevels : List PyStr := [pyS "none", pyS "low", pyS "moderate", pyS "high"]

/-- The early-return dictionary for empty/None/non-string input. -/
def guardRiskDict : RiskDict :=
  ⟨pyS "none", pyS "No valid input provided", false⟩

/-- The safe default returned by the `except` clause of
`assess_risk`. -/
def failRiskDict : RiskDict :=
  ⟨pyS "none", pyS "Assessment failed. Please try again.", false⟩

/-- The Python value passed as `input_text`: either an actual string
or a non-string value (`None`, a number, …). -/
inductive PyInput
  | str (s : PyStr)
  | nonString
deriving DecidableEq, Repr

/-- The guard `not input_text or not isinstance(input_text, str)`:
true for the empty string and for every non-string value. -/
def invalidRiskInput : PyInput → Bool
  | .str s => s.isEmpty
  | .nonString => true

/-- The `ValueError("Kernel not set")` raised before the guard. -/
inductive PyError
  | valueError (msg : String)
deriving DecidableEq, Repr

/-- The externally visible side effects of one `assess_risk` call:
invoking the LLM agent, and attempting to log the assessment to the
store. -/
inductive SafetyEffect
  | agentCall
  | logAssessment
deriving DecidableEq, Repr

/-- The parsing stage of `assess_risk` applied to one reply:
`some (risk_level, reasoning)` as computed by the `json.loads` branch
or the colon fallback; `none` when handling the reply raises into the
enclosing `except` clause. -/
def parseRiskReply : LlmReply → Option (PyStr × PyStr)
  | .jsonObj rl rs =>
    some (pyLower (rl.getD (pyS "none")), rs.getD (pyS "No reasoning provided"))
  | .jsonOther => none
  | .notJson text =>
    if text.contains ':' then
      let p := pySplitColon text
      some (pyLower (pyStrip p.1), p.2)
    else
      some (pyS "none", text)

namespace SafetyPlugin

/-- `SafetyPlugin.assess_risk`.  Parameters of the environment:
`kernelSet` — whether `set_kernel` was called; `oracle k` — the
outcome of the `k`-th underlying LLM call made by
`get_agent_response`; `logOk` — whether the
`cosmos_service.log_safety_assessment(...)` call returns normally.
(That method is not defined on `CosmosService` in the source — the
unit tests mock it — so its behaviour is abstracted as `logOk`; when
it raises, the enclosing `except` clause returns the safe default.)
The body's own `@retry` decorator never re-runs the body: every
exception the body can raise after the kernel check is caught
internally, and the kernel check's `ValueError` does not match
`retry_if_exception_type((ConnectionError, TimeoutError))`.
Returns the result (`.error` = raised exception) and the effect
trace. -/
def assess_risk (kernelSet : Bool) (input : PyInput)
    (oracle : Nat → Except ErrKind LlmReply) (logOk : Bool) :
    Except PyError RiskDict × List SafetyEffect :=
  if !kernelSet then
    (.error (.valueError "Kernel not set"), [])
  else if invalidRiskInput input then
    (.ok guardRiskDict, [])
  else
    match (AzureAgentService.get_agent_response oracle).result with
    | .error _ => (.ok failRiskDict, [.agentCall])
    | .ok reply =>
      match parseRiskReply reply with
      | none => (.ok failRiskDict, [.agentCall])
      | some (rl0, rs0) =>
        let rl := if riskLevels.contains rl0 then rl0 else pyS "none"
        let result : RiskDict :=
          ⟨rl, pyStrip rs0, [pyS "moderate", pyS "high"].contains rl⟩
        if logOk then
          (.ok result, [.agentCall, .logAssessment])
        else
          (.ok failRiskDict, [.agentCall, .logAssessment])

end SafetyPlugin

namespace MoodAnalyzerPlugin

/-- `MoodAnalyzerPlugin.analyze_mood`.  The empty-input guard returns
a fixed message; otherwise the agent call (with `get_agent_response`'s
internal retrying) either yields the stripped response text or, on
any exception, the fixed fallback of the `except` clause.  The
function's own `@retry(stop=stop_after_attempt(2), ...)` decorator
never re-runs the body, because the body catches every exception. -/
def analyze_mood (input_text : PyStr)
    (oracle : Nat → Except ErrKind PyStr) : PyStr :=
  if input_text.isEmpty then
    pyS "Unable to analyze mood from empty text."
  else
    match (AzureAgentService.get_agent_response oracle).result with
    | .ok response => pyStrip response
    | .error _ => pyS "Unable to analyze mood. Please try again later."

end MoodAnalyzerPlugin

/-! ## Concrete fixtures used to evaluate the theorems -/

/-- A stored user document fixture. -/
def u1Doc : UserDoc := ⟨"u1", "a@b.c", "h", 0, "free", [], []⟩

/-- The user document produced by registering `a@b.c` with password
`Password1` under the hash function `fun s => s ++ "#h"`. -/
def u1Hashed : UserDoc := ⟨"u1", "a@b.c", "Password1#h", 7, "free", [], []⟩

/-- A journal entry fixture owned by `bob`. -/
def bobEntry : JournalDoc :=
  ⟨"e1", "bob", "hi", [], none, 3, none, none, none, some "journal_entry"⟩

/-- A journal entry fixture owned by `alice`. -/
def aliceEntry : JournalDoc :=
  ⟨"e1", "alice", "old", ["sad"], some 2, 3, none, none, none,
    some "journal_entry"⟩

/-- An update payload that sets only the content. -/
def contentOnlyUpdate : JournalEntryUpdateData := ⟨some "new", none, none⟩

/-! ## Supporting lemmas -/

theorem get_user_by_email_eq_some {store : List UserDoc} {email : String}
    {u : UserDoc} (h : CosmosService.get_user_by_email store email = some u) :
    u ∈ store ∧ u.email = email := by
  unfold CosmosService.get_user_by_email at h
  have hmem := mem_of_head?_eq_some h
  rw [mem_sortDescBy] at hmem
  have hf := List.mem_filter.mp hmem
  exact ⟨hf.1, by simpa using hf.2⟩

theorem get_user_by_email_eq_none_iff (store : List UserDoc) (email : String) :
    CosmosService.get_user_by_email store email = none ↔
      ∀ u ∈ store, u.email ≠ email := by
  unfold CosmosService.get_user_by_email
  rw [List.head?_eq_none_iff, sortDescBy_eq_nil_iff]
  simp [List.filter_eq_nil_iff]

theorem find?_map_replace (p : α → Bool) (nd : α) {l : List α} {e : α}
    (hfind : l.find? p = some e) (hnd : p nd = true) :
    (l.map (fun d => if p d then nd else d)).find? p = some nd := by
  induction l with
  | nil => simp at hfind
  | cons a as ih =>
    by_cases hpa : p a = true
    · simp only [List.map_cons, if_pos hpa, List.find?_cons, hnd]
    · have hpa' : p a = false := Bool.eq_false_iff.mpr hpa
      rw [List.find?_cons, hpa'] at hfind
      simp [hpa', ih hfind]

theorem mem_map_replace (p : α → Bool) (nd : α) {l : List α} {d : α}
    (hd : d ∈ l) (hpd : p d = false) :
    d ∈ l.map (fun x => if p x then nd else x) :=
  List.mem_map.mpr ⟨d, hd, by simp [hpd]⟩

theorem retryRunAux_calls_le (sr : ε → Bool) (w : Nat → Nat)
    (oracle : Nat → Except ε α) (fuel attempt : Nat) :
    (retryRunAux sr w oracle fuel attempt).calls ≤ fuel + 1 := by
  induction fuel generalizing attempt with
  | zero =>
    cases h : oracle attempt <;> simp [retryRunAux, h]
  | succ n ih =>
    cases h : oracle attempt with
    | ok a => simp [retryRunAux, h]
    | error e =>
      by_cases hr : sr e = true
      · simp only [retryRunAux, h, hr, if_true]
        exact Nat.succ_le_succ (ih (attempt + 1))
      · simp [retryRunAux, h, hr]

/-! ## C3: `UserCreate` password validation -/

/-- C3 (counterexample): the claim "validation accepts the password
only if … the confirmation field matches the password" is false: the
payload with the strong password `"Password1"` and the
`password_confirm` field omitted is accepted, although its
confirmation (the `None` default) does not match the password —
pydantic does not run the `passwords_match` validator on an unset
optional field. -/
theorem C3_counterexample :
    ¬(validate_user_create (pyS "Password1") none = true →
       (none : Option (Option PyStr)) = some (some (pyS "Password1"))) := by
  decide

/-- C3 (amended): `UserCreate` validation accepts the payload iff the
password has at least 8 characters, contains a digit and an uppercase
letter, and the confirmation field, **when it is supplied**, equals
the password; a payload that omits the confirmation field entirely is
accepted on the strength of the password alone. -/
theorem C3_theorem (password : PyStr) (password_confirm : Option (Option PyStr)) :
    validate_user_create password password_confirm = true ↔
      (8 ≤ password.length ∧
       (∃ c ∈ password, c.isDigit = true) ∧
       (∃ c ∈ password, c.isUpper = true) ∧
       (password_confirm = none ∨ password_confirm = some (some password))) := by
  unfold validate_user_create password_strength
  cases password_confirm with
  | none =>
    simp [List.any_eq_true, and_assoc]
  | some v =>
    simp [List.any_eq_true, and_assoc]

/-- C3 witness: the amended characterization evaluated on a concrete
accepted payload with a matching supplied confirmation. -/
theorem C3_theorem_witness :
    validate_user_create (pyS "Password1") (some (some (pyS "Password1"))) = true :=
  (C3_theorem (pyS "Password1") (some (some (pyS "Password1")))).mpr (by decide)

/-! ## C10: `assess_risk` input guard -/

/-- C10: for every empty, `None`, or non-string input,
`SafetyPlugin.assess_risk` returns
`{"risk_level": "none", "reasoning": "No valid input provided",
"requires_immediate_action": False}` with no LLM-agent call and no
assessment logged (empty effect trace); and when the kernel has not
been set it raises `ValueError` instead. -/
theorem C10_theorem (input : PyInput) (oracle : Nat → Except ErrKind LlmReply)
    (logOk : Bool) (h : invalidRiskInput input = true) :
    SafetyPlugin.assess_risk true input oracle logOk =
      (.ok ⟨pyS "none", pyS "No valid input provided", false⟩, []) ∧
    SafetyPlugin.assess_risk false input oracle logOk =
      (.error (.valueError "Kernel not set"), []) := by
  constructor
  · unfold SafetyPlugin.assess_risk
    simp [h, guardRiskDict]
  · rfl

/-- C10 witness: the guard evaluated on the non-string input. -/
theorem C10_theorem_witness :
    SafetyPlugin.assess_risk true PyInput.nonString
        (fun _ => .ok LlmReply.jsonOther) true =
      (.ok ⟨pyS "none", pyS "No valid input provided", false⟩, []) ∧
    SafetyPlugin.assess_risk false PyInput.nonString
        (fun _ => .ok LlmReply.jsonOther) true =
      (.error (.valueError "Kernel not set"), []) :=
  C10_theorem PyInput.nonString (fun _ => .ok LlmReply.jsonOther) true (by decide)

/-! ## C2: shape of the risk-assessment dictionary -/

/-- C2: whatever the environment — any input value, any LLM reply
(well-formed JSON object, JSON that raises on handling, malformed
text with or without a colon) or raised exception, and either outcome
of the store-logging step — every dictionary `assess_risk` returns
has `risk_level` in `{none, low, moderate, high}` and
`requires_immediate_action` true exactly when `risk_level` is
`moderate` or `high`. -/
theorem C2_theorem (kernelSet : Bool) (input : PyInput)
    (oracle : Nat → Except ErrKind LlmReply) (logOk : Bool)
    (d : RiskDict) (effs : List SafetyEffect)
    (h : SafetyPlugin.assess_risk kernelSet input oracle logOk = (.ok d, effs)) :
    d.risk_level ∈ riskLevels ∧
    (d.requires_immediate_action = true ↔
      (d.risk_level = pyS "moderate" ∨ d.risk_level = pyS "high")) := by
  unfold SafetyPlugin.assess_risk at h
  cases kernelSet with
  | false => simp at h
  | true =>
    rw [if_neg (by simp)] at h
    by_cases hg : invalidRiskInput input = true
    · rw [if_pos hg] at h
      have hd : d = guardRiskDict := by
        have := congrArg Prod.fst h
        simpa using this.symm
      subst hd
      refine ⟨by decide, by decide⟩
    · rw [if_neg hg] at h
      cases hres : (AzureAgentService.get_agent_response oracle).result with
      | error e =>
        rw [hres] at h
        have hd : d = failRiskDict := by
          have := congrArg Prod.fst h
          simpa using this.symm
        subst hd
        refine ⟨by decide, by decide⟩
      | ok reply =>
        rw [hres] at h
        cases hp : parseRiskReply reply with
        | none =>
          simp only [hp] at h
          have hd : d = failRiskDict := by
            have := congrArg Prod.fst h
            simpa using this.symm
          subst hd
          refine ⟨by decide, by decide⟩
        | some pr =>
          obtain ⟨rl0, rs0⟩ := pr
          simp only [hp] at h
          cases logOk with
          | false =>
            simp only [Bool.false_eq_true, if_false] at h
            have hd : d = failRiskDict := by
              have := congrArg Prod.fst h
              simpa using this.symm
            subst hd
            refine ⟨by decide, by decide⟩
          | true =>
            simp only [if_true] at h
            by_cases hc : riskLevels.contains rl0 = true
            · simp only [hc, if_true] at h
              have hd : d = ⟨rl0, pyStrip rs0, [pyS "moderate", pyS "high"].contains rl0⟩ := by
                have := congrArg Prod.fst h
                simpa using this.symm
              subst hd
              refine ⟨List.mem_of_elem_eq_true hc, ?_⟩
              simp only [RiskDict.requires_immediate_action, RiskDict.risk_level]
              constructor
              · intro hx
                simpa using List.mem_of_elem_eq_true hx
              · intro hx
                exact List.elem_eq_true_of_mem (by simpa using hx)
            · have hc' : riskLevels.contains rl0 = false := Bool.eq_false_iff.mpr hc
              simp only [hc', Bool.false_eq_true, if_false] at h
              have hd : d = ⟨pyS "none", pyStrip rs0,
                  [pyS "moderate", pyS "high"].contains (pyS "none")⟩ := by
                have := congrArg Prod.fst h
                simpa using this.symm
              subst hd
              constructor
              · show pyS "none" ∈ riskLevels
                decide
              · show ([pyS "moderate", pyS "high"].contains (pyS "none") = true) ↔
                  (pyS "none" = pyS "moderate" ∨ pyS "none" = pyS "high")
                decide

/-- C2 witness: the property evaluated on the guard dictionary path. -/
theorem C2_theorem_witness :
    guardRiskDict.risk_level ∈ riskLevels ∧
    (guardRiskDict.requires_immediate_action = true ↔
      (guardRiskDict.risk_level = pyS "moderate" ∨
       guardRiskDict.risk_level = pyS "high")) :=
  C2_theorem true PyInput.nonString (fun _ => .error ErrKind.otherError) true
    guardRiskDict [] rfl

/-! ## C8: `get_current_user` -/

/-- C8: `get_current_user` either returns a stored user whose email
equals the token's `sub` claim, or fails with the 401
`credentials_exception`; it succeeds exactly when the signature is
valid, the token is unexpired, the `sub` claim is present, and a user
with that email exists. -/
theorem C8_theorem (store : List UserDoc) (token : TokenClaims) :
    (∀ u, get_current_user store token = .ok u →
       token.sig_valid = true ∧ token.expired = false ∧
       token.sub = some u.email ∧ u ∈ store) ∧
    (∀ err, get_current_user store token = .error err →
       err = credentials_exception) ∧
    ((∃ u, get_current_user store token = .ok u) ↔
       (token.sig_valid = true ∧ token.expired = false ∧
        ∃ s, token.sub = some s ∧ ∃ u ∈ store, u.email = s)) := by
  obtain ⟨sv, ex, sub⟩ := token
  cases sv with
  | false =>
    refine ⟨?_, ?_, ?_⟩
    · intro u hu; simp [get_current_user, jwt_decode] at hu
    · intro err herr
      simp only [get_current_user, jwt_decode, Bool.false_and, if_neg] at herr
      · exact (Except.error.injEq _ _ ▸ herr).symm ▸ rfl
    · constructor
      · rintro ⟨u, hu⟩; simp [get_current_user, jwt_decode] at hu
      · rintro ⟨hsv, -⟩; exact absurd hsv (by simp)
  | true =>
    cases ex with
    | true =>
      refine ⟨?_, ?_, ?_⟩
      · intro u hu; simp [get_current_user, jwt_decode] at hu
      · intro err herr
        simp [get_current_user, jwt_decode] at herr
        simp [herr]
      · constructor
        · rintro ⟨u, hu⟩; simp [get_current_user, jwt_decode] at hu
        · rintro ⟨-, hex, -⟩; exact absurd hex (by simp)
    | false =>
      cases sub with
      | none =>
        refine ⟨?_, ?_, ?_⟩
        · intro u hu; simp [get_current_user, jwt_decode] at hu
        · intro err herr
          simp [get_current_user, jwt_decode] at herr
          simp [herr]
        · constructor
          · rintro ⟨u, hu⟩; simp [get_current_user, jwt_decode] at hu
          · rintro ⟨-, -, s, hs, -⟩; exact absurd hs (by simp)
      | some s =>
        cases hu : CosmosService.get_user_by_email store s with
        | none =>
          refine ⟨?_, ?_, ?_⟩
          · intro u h; simp [get_current_user, jwt_decode, hu] at h
          · intro err herr
            simp [get_current_user, jwt_decode, hu] at herr
            simp [herr]
          · constructor
            · rintro ⟨u, h⟩; simp [get_current_user, jwt_decode, hu] at h
            · rintro ⟨-, -, s', hs', u, humem, hueml⟩
              have hss : s = s' := by simpa using hs'
              subst hss
              have := (get_user_by_email_eq_none_iff store s).mp hu u humem
              exact absurd hueml this
        | some u0 =>
          have hprops := get_user_by_email_eq_some hu
          refine ⟨?_, ?_, ?_⟩
          · intro u h
            have hu0 : u0 = u := by
              simpa [get_current_user, jwt_decode, hu] using h
            subst hu0
            exact ⟨rfl, rfl, by simp [hprops.2], hprops.1⟩
          · intro err herr
            simp [get_current_user, jwt_decode, hu] at herr
          · constructor
            · rintro ⟨u, -⟩
              exact ⟨rfl, rfl, s, rfl, u0, hprops.1, hprops.2⟩
            · rintro -
              exact ⟨u0, by simp [get_current_user, jwt_decode, hu]⟩

/-- C8 witness: a valid token for a stored user succeeds; a token
with a bad signature gets the 401. -/
theorem C8_theorem_witness :
    (∃ u, get_current_user [u1Doc] ⟨true, false, some "a@b.c"⟩ = .ok u) ∧
    get_current_user [u1Doc] ⟨false, false, some "a@b.c"⟩ =
      .error credentials_exception := by
  constructor
  · exact (C8_theorem [u1Doc] ⟨true, false, some "a@b.c"⟩).2.2.mpr
      ⟨rfl, rfl, "a@b.c", rfl, u1Doc, List.mem_singleton.mpr rfl, rfl⟩
  · exact (C8_theorem [u1Doc]
        ⟨false, false, some "a@b.c"⟩).2.1 credentials_exception rfl ▸ rfl

/-! ## C9: email uniqueness at registration -/

/-- C9: when a stored user already has the submitted email,
`POST /auth/register` responds 400 "Email already registered" and
leaves the users container unchanged; otherwise (for a fresh `uuid4`
id) it appends exactly one new user document carrying the submitted
email and the bcrypt hash of the submitted password. -/
theorem C9_theorem (store : List UserDoc) (newId : String) (now : Nat)
    (hashPw : String → String) (email password : String) :
    ((∃ u ∈ store, u.email = email) →
       AuthRouter.register_user store newId now hashPw email password =
         (.error ⟨400, "Email already registered"⟩, store)) ∧
    ((∀ u ∈ store, u.email ≠ email) → (∀ u ∈ store, u.id ≠ newId) →
       AuthRouter.register_user store newId now hashPw email password =
         (.ok ⟨newId, email, hashPw password, now, "free", [], []⟩,
          store ++ [⟨newId, email, hashPw password, now, "free", [], []⟩])) := by
  constructor
  · rintro ⟨u, humem, hueml⟩
    cases hq : CosmosService.get_user_by_email store email with
    | none =>
      exact absurd hueml ((get_user_by_email_eq_none_iff store email).mp hq u humem)
    | some u0 =>
      unfold AuthRouter.register_user
      rw [hq]
  · intro hemail hid
    have hq : CosmosService.get_user_by_email store email = none :=
      (get_user_by_email_eq_none_iff store email).mpr hemail
    have hany : store.any (fun u => u.id == newId) = false := by
      rw [List.any_eq_false]
      intro u hu
      simpa using hid u hu
    unfold AuthRouter.register_user
    rw [hq]
    unfold CosmosService.create_user
    rw [hany]
    rfl

/-- C9 witness: registering against the empty store creates the one
user; re-registering the same email is rejected with the store
unchanged. -/
theorem C9_theorem_witness :
    AuthRouter.register_user [] "u1" 7 (fun s => s ++ "#h") "a@b.c" "Password1" =
      (.ok u1Hashed, [u1Hashed]) ∧
    AuthRouter.register_user [u1Hashed]
        "u2" 9 (fun s => s ++ "#h") "a@b.c" "Password2" =
      (.error ⟨400, "Email already registered"⟩, [u1Hashed]) := by
  constructor
  · exact (C9_theorem [] "u1" 7 (fun s => s ++ "#h") "a@b.c" "Password1").2
      (by simp) (by simp)
  · exact (C9_theorem [u1Hashed]
        "u2" 9 (fun s => s ++ "#h") "a@b.c" "Password2").1
      ⟨u1Hashed, List.mem_singleton.mpr rfl, rfl⟩

/-! ## C1: journal-entry ownership and 404 masking -/

/-- C1: the `GET/PUT/DELETE /journal/{id}` handlers return the entry
(or perform the update/delete) exactly when the stored entry exists
and its `user_id` equals the requester's id; in every other case —
including the entry existing but belonging to a different user —
they respond with the 404 "Journal entry not found" (never a 403) and
leave the container unchanged. -/
theorem C1_theorem (store : List JournalDoc) (uid eid : String)
    (u : JournalEntryUpdateData) (now : Nat) :
    (∀ e, JournalRouter.get_journal_entry store eid uid = .ok e →
       CosmosService.get_journal_entry store eid = some e ∧ e.user_id = uid) ∧
    (∀ e, CosmosService.get_journal_entry store eid = some e → e.user_id = uid →
       JournalRouter.get_journal_entry store eid uid = .ok e ∧
       (∃ r s', JournalRouter.update_journal_entry store eid u uid now = (.ok r, s')) ∧
       (∃ r s', JournalRouter.delete_journal_entry store eid uid = (.ok r, s'))) ∧
    (∀ err, JournalRouter.get_journal_entry store eid uid = .error err →
       err = notFoundJournal ∧
       ¬∃ e, CosmosService.get_journal_entry store eid = some e ∧ e.user_id = uid) ∧
    (∀ r s', JournalRouter.update_journal_entry store eid u uid now = (.ok r, s') →
       ∃ e, CosmosService.get_journal_entry store eid = some e ∧ e.user_id = uid) ∧
    (∀ err s', JournalRouter.update_journal_entry store eid u uid now = (.error err, s') →
       err = notFoundJournal ∧ s' = store ∧
       ¬∃ e, CosmosService.get_journal_entry store eid = some e ∧ e.user_id = uid) ∧
    (∀ r s', JournalRouter.delete_journal_entry store eid uid = (.ok r, s') →
       ∃ e, CosmosService.get_journal_entry store eid = some e ∧ e.user_id = uid) ∧
    (∀ err s', JournalRouter.delete_journal_entry store eid uid = (.error err, s') →
       err = notFoundJournal ∧ s' = store ∧
       ¬∃ e, CosmosService.get_journal_entry store eid = some e ∧ e.user_id = uid) := by
  cases hl : CosmosService.get_journal_entry store eid with
  | none =>
    refine ⟨?_, ?_, ?_, ?_, ?_, ?_, ?_⟩
    · intro e he
      simp [JournalRouter.get_journal_entry, hl] at he
    · intro e he
      simp at he
    · intro err herr
      simp only [JournalRouter.get_journal_entry, hl] at herr
      refine ⟨by simpa using herr.symm, ?_⟩
      rintro ⟨e, he, -⟩
      simp at he
    · intro r s' hr
      simp [JournalRouter.update_journal_entry, hl] at hr
    · intro err s' herr
      simp only [JournalRouter.update_journal_entry, hl, Prod.mk.injEq] at herr
      refine ⟨by simpa using herr.1.symm, herr.2.symm, ?_⟩
      rintro ⟨e, he, -⟩
      simp at he
    · intro r s' hr
      simp [JournalRouter.delete_journal_entry, hl] at hr
    · intro err s' herr
      simp only [JournalRouter.delete_journal_entry, hl, Prod.mk.injEq] at herr
      refine ⟨by simpa using herr.1.symm, herr.2.symm, ?_⟩
      rintro ⟨e, he, -⟩
      simp at he
  | some e0 =>
    by_cases how : e0.user_id = uid
    · refine ⟨?_, ?_, ?_, ?_, ?_, ?_, ?_⟩
      · intro e he
        have he0 : e0 = e := by
          simpa [JournalRouter.get_journal_entry, hl, how] using he
        subst he0
        exact ⟨rfl, how⟩
      · intro e he hown
        have he0 : e0 = e := by simpa using he
        subst he0
        refine ⟨by simp [JournalRouter.get_journal_entry, hl, how], ?_, ?_⟩
        · refine ⟨(CosmosService.update_journal_entry store eid uid u now).1,
            (CosmosService.update_journal_entry store eid uid u now).2, ?_⟩
          simp [JournalRouter.update_journal_entry, hl, how]
        · refine ⟨"Entry deleted successfully",
            (CosmosService.delete_journal_entry store eid uid).2, ?_⟩
          simp [JournalRouter.delete_journal_entry, hl, how]
      · intro err herr
        simp [JournalRouter.get_journal_entry, hl, how] at herr
      · intro r s' hr
        exact ⟨e0, rfl, how⟩
      · intro err s' herr
        simp [JournalRouter.update_journal_entry, hl, how] at herr
      · intro r s' hr
        exact ⟨e0, rfl, how⟩
      · intro err s' herr
        simp [JournalRouter.delete_journal_entry, hl, how] at herr
    · have hne : ¬∃ e, some e0 = some e ∧ e.user_id = uid := by
        rintro ⟨e, he, hown⟩
        have he0 : e0 = e := by simpa using he
        exact how (he0 ▸ hown)
      refine ⟨?_, ?_, ?_, ?_, ?_, ?_, ?_⟩
      · intro e he
        simp [JournalRouter.get_journal_entry, hl, how] at he
      · intro e he hown
        have he0 : e0 = e := by simpa using he
        exact absurd (he0 ▸ hown) how
      · intro err herr
        simp only [JournalRouter.get_journal_entry, hl] at herr
        rw [if_neg (by simpa using how)] at herr
        exact ⟨by simpa using herr.symm, hne⟩
      · intro r s' hr
        simp only [JournalRouter.update_journal_entry, hl] at hr
        rw [if_neg (by simpa using how)] at hr
        simp at hr
      · intro err s' herr
        simp only [JournalRouter.update_journal_entry, hl] at herr
        rw [if_neg (by simpa using how)] at herr
        obtain ⟨h1, h2⟩ := Prod.mk.injEq .. ▸ herr
        exact ⟨by simpa using h1.symm, h2.symm, hne⟩
      · intro r s' hr
        simp only [JournalRouter.delete_journal_entry, hl] at hr
        rw [if_neg (by simpa using how)] at hr
        simp at hr
      · intro err s' herr
        simp only [JournalRouter.delete_journal_entry, hl] at herr
        rw [if_neg (by simpa using how)] at herr
        obtain ⟨h1, h2⟩ := Prod.mk.injEq .. ▸ herr
        exact ⟨by simpa using h1.symm, h2.symm, hne⟩

/-- C1 witness: on a one-entry store owned by `bob`, requester
`alice` gets the 404 with no owned entry to find, while `bob` gets
the entry back. -/
theorem C1_theorem_witness :
    (notFoundJournal = notFoundJournal ∧
     ¬∃ e, CosmosService.get_journal_entry [bobEntry] "e1" = some e ∧
       e.user_id = "alice") ∧
    JournalRouter.get_journal_entry [bobEntry] "e1" "bob" = .ok bobEntry := by
  constructor
  · exact (C1_theorem [bobEntry]
      "alice" "e1" ⟨none, none, none⟩ 9).2.2.1 notFoundJournal rfl
  · exact ((C1_theorem [bobEntry]
      "bob" "e1" ⟨none, none, none⟩ 9).2.1 bobEntry rfl rfl).1

/-! ## C5: create-then-get round trip -/

/-- C5: creating a journal entry via `POST /journal/` (with a fresh
`uuid4` id) and then fetching the returned id via
`GET /journal/{id}` yields the created entry, whose `content`,
`mood_indicators` and `mood_score` equal the submitted payload. -/
theorem C5_theorem (store : List JournalDoc) (uid newId : String) (now : Nat)
    (content : String) (mood_indicators : List String)
    (mood_score : Option Nat) (insights : Option (List (String × String)))
    (hfresh : ∀ d ∈ store, d.id ≠ newId) :
    JournalRouter.get_journal_entry
        (JournalRouter.create_journal_entry store newId now uid content
          mood_indicators mood_score insights).2
        newId uid =
      .ok (JournalRouter.create_journal_entry store newId now uid content
          mood_indicators mood_score insights).1 ∧
    (JournalRouter.create_journal_entry store newId now uid content
        mood_indicators mood_score insights).1.content = content ∧
    (JournalRouter.create_journal_entry store newId now uid content
        mood_indicators mood_score insights).1.mood_indicators = mood_indicators ∧
    (JournalRouter.create_journal_entry store newId now uid content
        mood_indicators mood_score insights).1.mood_score = mood_score := by
  refine ⟨?_, rfl, rfl, rfl⟩
  have hnone : store.find? (fun d => d.id == newId) = none := by
    rw [List.find?_eq_none]
    intro d hd
    simpa using hfresh d hd
  simp only [JournalRouter.get_journal_entry, JournalRouter.create_journal_entry,
    CosmosService.create_journal_entry, CosmosService.get_journal_entry]
  rw [List.find?_append, hnone]
  simp

/-- C5 witness: round trip on the empty store. -/
theorem C5_theorem_witness :
    JournalRouter.get_journal_entry
        (JournalRouter.create_journal_entry [] "e1" 4 "alice" "hello"
          ["calm"] (some 7) none).2
        "e1" "alice" =
      .ok (JournalRouter.create_journal_entry [] "e1" 4 "alice" "hello"
          ["calm"] (some 7) none).1 :=
  (C5_theorem [] "alice" "e1" 4 "hello" ["calm"] (some 7) none
    (by simp)).1

/-! ## C6: update is read-modify-replace -/

/-- C6 (code bug): the claimed field replacement never happens.  The
router passes the parsed payload as the single kwarg
`update_data=entry_update.dict(exclude_unset=True)`, which the
`**update_fields` catch-all of `CosmosService.update_journal_entry`
receives as `{"update_data": {...}}`, so the replacement body keeps
every old field value and only gains `updated_at` (plus the inert
nested member).  Concretely: updating the owned entry `aliceEntry`
(content `"old"`) with a payload that sets the content to `"new"`
returns 200 with — and stores — a document whose content is still
`"old"` and whose only model-field change is `updated_at`; every
other entry field is likewise untouched.  The claim matches the
method's own contract: its docstring reads "**update_fields: Keyword
arguments for fields to update", and
`tests/integration/db/test_cosmos_db.py` calls it with field kwargs
(`content=..., sentiment_score=...`) and asserts the content changes;
the router's call convention is the slip. -/
theorem C6_theorem :
    contentOnlyUpdate.content = some "new" ∧
    aliceEntry.content = "old" ∧
    (JournalRouter.update_journal_entry [aliceEntry]
        "e1" contentOnlyUpdate "alice" 9).1 =
      .ok (some (CosmosService.apply_update aliceEntry contentOnlyUpdate 9)) ∧
    (CosmosService.apply_update aliceEntry contentOnlyUpdate 9).content = "old" ∧
    (CosmosService.apply_update aliceEntry contentOnlyUpdate 9).mood_indicators =
      aliceEntry.mood_indicators ∧
    (CosmosService.apply_update aliceEntry contentOnlyUpdate 9).mood_score =
      aliceEntry.mood_score ∧
    (CosmosService.apply_update aliceEntry contentOnlyUpdate 9).updated_at =
      some 9 ∧
    CosmosService.get_journal_entry
        (JournalRouter.update_journal_entry [aliceEntry]
          "e1" contentOnlyUpdate "alice" 9).2 "e1" =
      some (CosmosService.apply_update aliceEntry contentOnlyUpdate 9) := by
  refine ⟨rfl, rfl, rfl, rfl, rfl, rfl, rfl, rfl⟩

/-! ## C4: listing pagination and ordering -/

/-- Every document `create_mood_log` — the only writer of the
`mood_logs` container in the source — ever puts in the container has
`timestamp = created_at` (both are set from the same
`datetime.utcnow()` instant), so the invariant assumed by the mood
part of the pagination property holds of every reachable store. -/
theorem create_mood_log_timestamp_eq_created_at
    (store : List MoodDoc) (newId : String) (now : Nat) (uid : String)
    (score : Nat) (labels : List String) (context : Option String)
    (factors : Option (List String)) (location : Option String)
    (h : ∀ m ∈ store, m.timestamp = m.created_at) :
    (CosmosService.create_mood_log store newId now uid score labels context
        factors location).1.timestamp =
      (CosmosService.create_mood_log store newId now uid score labels context
        factors location).1.created_at ∧
    ∀ m ∈ (CosmosService.create_mood_log store newId now uid score labels
        context factors location).2,
      m.timestamp = m.created_at := by
  refine ⟨rfl, ?_⟩
  intro m hm
  rcases List.mem_append.mp hm with hm' | hm'
  · exact h m hm'
  · rcases List.mem_singleton.mp hm' with rfl
    rfl

/-- C4: journal listing returns at most `limit` items, all owned by
the requesting user, and equals the `skip`/`limit` slice of the
user's journal-entry documents sorted by `created_at` descending
(a sorted order: keys are pairwise non-increasing).  Mood listing
sorts by `timestamp`, which on every store the code can produce
(where `timestamp = created_at`, see
`create_mood_log_timestamp_eq_created_at`) is the same order, so
under that invariant it likewise returns the `skip`/`limit` slice of
the user's logs sorted by `created_at` descending. -/
theorem C4_theorem (jstore : List JournalDoc) (mstore : List MoodDoc)
    (uid : String) (skip limit : Nat) :
    (JournalRouter.get_journal_entries jstore uid skip limit).length ≤ limit ∧
    (∀ d ∈ JournalRouter.get_journal_entries jstore uid skip limit,
       d.user_id = uid) ∧
    JournalRouter.get_journal_entries jstore uid skip limit =
      ((sortDescBy (fun d => d.created_at)
          (jstore.filter (fun d => d.user_id == uid &&
            d.type == some "journal_entry"))).drop skip).take limit ∧
    (sortDescBy (fun d => d.created_at)
        (jstore.filter (fun d => d.user_id == uid &&
          d.type == some "journal_entry"))).Pairwise
      (fun a b => b.created_at ≤ a.created_at) ∧
    ((∀ m ∈ mstore, m.timestamp = m.created_at) →
      (CosmosService.get_mood_logs mstore uid limit skip).length ≤ limit ∧
      (∀ d ∈ CosmosService.get_mood_logs mstore uid limit skip,
         d.user_id = uid) ∧
      CosmosService.get_mood_logs mstore uid limit skip =
        ((sortDescBy (fun d => d.created_at)
            (mstore.filter (fun d => d.user_id == uid))).drop skip).take limit ∧
      (sortDescBy (fun d => d.created_at)
          (mstore.filter (fun d => d.user_id == uid))).Pairwise
        (fun a b => b.created_at ≤ a.created_at)) := by
  refine ⟨?_, ?_, rfl, pairwise_sortDescBy _ _, ?_⟩
  · exact List.length_take_le limit _
  · intro d hd
    have hd1 := List.drop_subset _ _ (List.take_subset _ _ hd)
    have hd2 := (mem_sortDescBy _ _ _).mp hd1
    have := (List.mem_filter.mp hd2).2
    simp only [Bool.and_eq_true, beq_iff_eq] at this
    exact this.1
  · intro hinv
    have hcongr : sortDescBy (fun d : MoodDoc => d.timestamp)
        (mstore.filter (fun d => d.user_id == uid)) =
        sortDescBy (fun d : MoodDoc => d.created_at)
          (mstore.filter (fun d => d.user_id == uid)) := by
      apply sortDescBy_congr
      intro x hx
      exact hinv x (List.mem_filter.mp hx).1
    refine ⟨?_, ?_, ?_, ?_⟩
    · exact List.length_take_le limit _
    · intro d hd
      have hd1 := List.drop_subset _ _ (List.take_subset _ _ hd)
      have hd2 := (mem_sortDescBy _ _ _).mp hd1
      have := (List.mem_filter.mp hd2).2
      simpa using this
    · unfold CosmosService.get_mood_logs
      rw [hcongr]
    · exact pairwise_sortDescBy _ _

/-- C4 witness: a two-user mood store satisfying the creation
invariant, listed for one of the users. -/
theorem C4_theorem_witness :
    (CosmosService.get_mood_logs
        [⟨"m1", "alice", 5, [], 2, none, [], none, 2, 2⟩,
         ⟨"m2", "bob", 6, [], 3, none, [], none, 3, 3⟩,
         ⟨"m3", "alice", 7, [], 4, none, [], none, 4, 4⟩]
        "alice" 10 0).length ≤ 10 ∧
    CosmosService.get_mood_logs
        [⟨"m1", "alice", 5, [], 2, none, [], none, 2, 2⟩,
         ⟨"m2", "bob", 6, [], 3, none, [], none, 3, 3⟩,
         ⟨"m3", "alice", 7, [], 4, none, [], none, 4, 4⟩]
        "alice" 10 0 =
      [⟨"m3", "alice", 7, [], 4, none, [], none, 4, 4⟩,
       ⟨"m1", "alice", 5, [], 2, none, [], none, 2, 2⟩] := by
  have h := (C4_theorem []
      [⟨"m1", "alice", 5, [], 2, none, [], none, 2, 2⟩,
       ⟨"m2", "bob", 6, [], 3, none, [], none, 3, 3⟩,
       ⟨"m3", "alice", 7, [], 4, none, [], none, 4, 4⟩]
      "alice" 0 10).2.2.2.2 (by decide)
  exact ⟨h.1, by decide⟩

/-! ## C7: retry policy and fallbacks -/

/-- C7 (counterexample): the claim that every LLM-orchestration
operation "returns a fixed safe fallback string or dictionary instead
of raising the error to the caller" is false for
`AzureAgentService.get_agent_response`: with every underlying call
raising `ConnectionError`, it makes its 3 attempts and then re-raises
the error (`.error` result) rather than returning any fallback value;
a non-transient error is re-raised immediately. -/
theorem C7_counterexample :
    (AzureAgentService.get_agent_response
        (fun _ => (.error .connectionError : Except ErrKind PyStr))).result =
      .error ErrKind.connectionError ∧
    (AzureAgentService.get_agent_response
        (fun _ => (.error .connectionError : Except ErrKind PyStr))).calls = 3 ∧
    (AzureAgentService.get_agent_response
        (fun _ => (.error .otherError : Except ErrKind PyStr))).result =
      .error ErrKind.otherError := by
  refine ⟨rfl, rfl, rfl⟩

/-- C7 (amended): the underlying agent call is attempted at most 3
times with `wait_exponential(1, min=1, max=10)` backoff, retrying
only on the transient `ConnectionError`/`TimeoutError`; a success or
a non-transient error ends the operation at once.  When the attempts
are exhausted `get_agent_response` re-raises the final error to its
caller; it is its plugin callers — risk assessment and mood
analysis — that catch every exception and turn it into the fixed
safe fallback dictionary/string instead of propagating it. -/
theorem C7_theorem :
    (∀ (α : Type) (oracle : Nat → Except ErrKind α),
       (AzureAgentService.get_agent_response oracle).calls ≤ 3) ∧
    (∀ (α : Type) (oracle : Nat → Except ErrKind α) (a : α),
       oracle 1 = .ok a →
       AzureAgentService.get_agent_response oracle = ⟨.ok a, 1, []⟩) ∧
    (∀ (α : Type) (oracle : Nat → Except ErrKind α) (e : ErrKind),
       oracle 1 = .error e → isTransient e = false →
       AzureAgentService.get_agent_response oracle = ⟨.error e, 1, []⟩) ∧
    (∀ (α : Type) (oracle : Nat → Except ErrKind α) (e₁ e₂ e₃ : ErrKind),
       oracle 1 = .error e₁ → oracle 2 = .error e₂ → oracle 3 = .error e₃ →
       isTransient e₁ = true → isTransient e₂ = true →
       AzureAgentService.get_agent_response oracle =
         ⟨.error e₃, 3,
          [wait_exponential 1 1 10 1, wait_exponential 1 1 10 2]⟩) ∧
    (∀ (input : PyInput) (oracle : Nat → Except ErrKind LlmReply)
       (logOk : Bool) (e : ErrKind),
       invalidRiskInput input = false →
       (AzureAgentService.get_agent_response oracle).result = .error e →
       SafetyPlugin.assess_risk true input oracle logOk =
         (.ok failRiskDict, [.agentCall])) ∧
    (∀ (input_text : PyStr) (oracle : Nat → Except ErrKind PyStr) (e : ErrKind),
       input_text.isEmpty = false →
       (AzureAgentService.get_agent_response oracle).result = .error e →
       MoodAnalyzerPlugin.analyze_mood input_text oracle =
         pyS "Unable to analyze mood. Please try again later.") := by
  refine ⟨?_, ?_, ?_, ?_, ?_, ?_⟩
  · intro α oracle
    exact retryRunAux_calls_le _ _ _ 2 1
  · intro α oracle a h
    simp [AzureAgentService.get_agent_response, retry_run, retryRunAux, h]
  · intro α oracle e h ht
    simp [AzureAgentService.get_agent_response, retry_run, retryRunAux, h, ht]
  · intro α oracle e₁ e₂ e₃ h1 h2 h3 ht1 ht2
    simp [AzureAgentService.get_agent_response, retry_run, retryRunAux,
      h1, h2, h3, ht1, ht2]
  · intro input oracle logOk e hv he
    unfold SafetyPlugin.assess_risk
    rw [if_neg (by simp), if_neg (by simp [hv]), he]
  · intro input_text oracle e hv he
    unfold MoodAnalyzerPlugin.analyze_mood
    rw [if_neg (by simp [hv]), he]

/-- C7 witness: the amended policy evaluated on concrete oracles —
an exhaustion run of three transient failures re-raised, a
single-attempt non-transient failure, and the plugins' fallbacks. -/
theorem C7_theorem_witness :
    AzureAgentService.get_agent_response
        (fun _ => (.error .timeoutError : Except ErrKind PyStr)) =
      ⟨.error ErrKind.timeoutError, 3, [2, 4]⟩ ∧
    AzureAgentService.get_agent_response
        (fun _ => (.error .otherError : Except ErrKind PyStr)) =
      ⟨.error ErrKind.otherError, 1, []⟩ ∧
    SafetyPlugin.assess_risk true (.str (pyS "hello"))
        (fun _ => .error .timeoutError) true =
      (.ok failRiskDict, [.agentCall]) ∧
    MoodAnalyzerPlugin.analyze_mood (pyS "hello")
        (fun _ => .error .timeoutError) =
      pyS "Unable to analyze mood. Please try again later." := by
  refine ⟨?_, ?_, ?_, ?_⟩
  · exact C7_theorem.2.2.2.1 PyStr (fun _ => .error .timeoutError)
      .timeoutError .timeoutError .timeoutError rfl rfl rfl rfl rfl
  · exact C7_theorem.2.2.1 PyStr (fun _ => .error .otherError)
      .otherError rfl rfl
  · exact C7_theorem.2.2.2.2.1 (.str (pyS "hello"))
      (fun _ => .error .timeoutError) true .timeoutError (by decide) rfl
  · exact C7_theorem.2.2.2.2.2 (pyS "hello")
      (fun _ => .error .timeoutError) .timeoutError (by decide) rfl
